import Mathlib

/-!
# FullWebpageScreenshot — verification of the segmented capture pipeline

Shallow embedding of the background script's `ScreenshotCapture` class
(segmented full-page capture, retry with backoff, canvas compositing).
Page and viewport dimensions are modelled as natural numbers: the DOM
reports non-negative integers for scroll/viewport sizes, and JavaScript's
`Math.max(0, a - b)` coincides with truncated subtraction on ℕ.
Canvas scaling arithmetic (done on JS doubles in the source) is modelled
over ℚ; on the rational values involved the double computation is exact
enough that every comparison in the source is decided identically.
-/

namespace Screenshot

/-- Page metrics snapshot returned by the injected dimension query
(`getPageDimensions`). -/
structure PageMetrics where
  scrollWidth : Nat
  scrollHeight : Nat
  viewportWidth : Nat
  viewportHeight : Nat
  deriving Repr, DecidableEq

/-- Segment count along one axis, from `captureFullPage`:
`Math.max(1, Math.floor(scroll / viewport) + (scroll % viewport > 0 ? 1 : 0))`. -/
def segmentCount (scroll viewport : Nat) : Nat :=
  max 1 (scroll / viewport + if scroll % viewport > 0 then 1 else 0)

/-- Clamped scroll offset of segment `i` along one axis:
`Math.min(i * viewport, Math.max(0, scroll - viewport))` (ℕ subtraction is
truncated, matching the `Math.max(0, _)` guard). -/
def scrollOffset (i scroll viewport : Nat) : Nat :=
  min (i * viewport) (scroll - viewport)

/-- Actual captured size of segment `i` along one axis:
`Math.min(viewport, scroll - scrollOffset)`. -/
def actualSize (i scroll viewport : Nat) : Nat :=
  min viewport (scroll - scrollOffset i scroll viewport)

/-- Point `p` lies in the half-open interval captured by segment `i`. -/
def inTile (i scroll viewport p : Nat) : Prop :=
  scrollOffset i scroll viewport ≤ p ∧
    p < scrollOffset i scroll viewport + actualSize i scroll viewport

instance (i scroll viewport p : Nat) : Decidable (inTile i scroll viewport p) :=
  inferInstanceAs (Decidable (scrollOffset i scroll viewport ≤ p ∧
    p < scrollOffset i scroll viewport + actualSize i scroll viewport))

theorem segmentCount_pos (scroll viewport : Nat) : 0 < segmentCount scroll viewport :=
  Nat.le_max_left 1 _

/-- The planned grid always spans the whole scroll range:
`scroll ≤ segmentCount * viewport`. -/
theorem le_segmentCount_mul (scroll viewport : Nat) (hv : 0 < viewport) :
    scroll ≤ segmentCount scroll viewport * viewport := by
  unfold segmentCount
  have hdm : scroll / viewport * viewport + scroll % viewport = scroll :=
    Nat.div_add_mod' scroll viewport
  rcases Nat.eq_zero_or_pos (scroll % viewport) with h0 | hpos
  · simp only [h0, Nat.lt_irrefl, gt_iff_lt, if_false]
    calc scroll = scroll / viewport * viewport := by omega
    _ ≤ max 1 (scroll / viewport) * viewport :=
        Nat.mul_le_mul_right _ (Nat.le_max_right 1 _)
  · have hif : (if scroll % viewport > 0 then 1 else 0) = 1 := if_pos hpos
    rw [hif]
    have hmax : max 1 (scroll / viewport + 1) = scroll / viewport + 1 :=
      Nat.max_eq_right (Nat.succ_le_succ (Nat.zero_le _))
    rw [hmax, Nat.add_mul, Nat.one_mul]
    have hlt : scroll % viewport < viewport := Nat.mod_lt scroll hv
    omega

/-- A point below the clamp boundary lies in its natural segment. -/
theorem inTile_of_mid (i scroll viewport p : Nat)
    (h1 : i * viewport ≤ p) (h2 : p < i * viewport + viewport)
    (h3 : i * viewport + viewport ≤ scroll) :
    inTile i scroll viewport p := by
  simp only [inTile, actualSize, scrollOffset]
  revert h1 h2 h3
  generalize i * viewport = A
  intro h1 h2 h3
  omega

/-- A point within one viewport of the end lies in the clamped last segment. -/
theorem inTile_of_last (scroll viewport p c : Nat) (hv : 0 < viewport)
    (hc2 : scroll ≤ c * viewport)
    (h1 : scroll ≤ p + viewport) (h2 : p < scroll) :
    inTile (c - 1) scroll viewport p := by
  simp only [inTile, actualSize, scrollOffset]
  have hB : (c - 1) * viewport = c * viewport - viewport := by
    rw [Nat.sub_mul, Nat.one_mul]
  rw [hB]
  revert hc2
  generalize c * viewport = B
  intro hc2
  omega

/-- One-dimensional coverage: with a positive viewport, the planned segments
cover exactly the interval from 0 to the scroll size. -/
theorem segments_cover (scroll viewport p : Nat) (hv : 0 < viewport) :
    p < scroll ↔
      ∃ i, i < segmentCount scroll viewport ∧ inTile i scroll viewport p := by
  constructor
  · intro hp
    have hbig := le_segmentCount_mul scroll viewport hv
    by_cases hcase : p / viewport * viewport + viewport ≤ scroll
    · refine ⟨p / viewport, ?_, inTile_of_mid _ _ _ _ (Nat.div_mul_le_self p viewport) ?_ hcase⟩
      · have h2 : (p / viewport + 1) * viewport ≤ segmentCount scroll viewport * viewport := by
          rw [Nat.add_mul, Nat.one_mul]
          exact Nat.le_trans hcase hbig
        exact Nat.lt_of_succ_le (Nat.le_of_mul_le_mul_right h2 hv)
      · calc p = p / viewport * viewport + p % viewport := (Nat.div_add_mod' p viewport).symm
        _ < p / viewport * viewport + viewport := Nat.add_lt_add_left (Nat.mod_lt p hv) _
    · have h5 : scroll < p / viewport * viewport + viewport := Nat.lt_of_not_le hcase
      have h4 : p / viewport * viewport ≤ p := Nat.div_mul_le_self p viewport
      refine ⟨segmentCount scroll viewport - 1, ?_,
        inTile_of_last scroll viewport p _ hv hbig ?_ hp⟩
      · have h1 := segmentCount_pos scroll viewport
        omega
      · exact Nat.le_of_lt (Nat.lt_of_lt_of_le h5 (Nat.add_le_add_right h4 _))
  · rintro ⟨i, _, h1, h2⟩
    revert h1 h2
    simp only [inTile, actualSize, scrollOffset]
    generalize i * viewport = A
    intro h1 h2
    omega

/-- C1 (amended): with positive viewport dimensions, the planned tile grid
covers exactly the page rectangle — a point lies in the rectangle iff some
grid cell's captured area contains it (no gap, nothing outside the page). -/
theorem tile_plan_covers_page (m : PageMetrics)
    (hw : 0 < m.viewportWidth) (hh : 0 < m.viewportHeight) (px py : Nat) :
    (px < m.scrollWidth ∧ py < m.scrollHeight) ↔
      ∃ x y, x < segmentCount m.scrollWidth m.viewportWidth ∧
        y < segmentCount m.scrollHeight m.viewportHeight ∧
        inTile x m.scrollWidth m.viewportWidth px ∧
        inTile y m.scrollHeight m.viewportHeight py := by
  constructor
  · rintro ⟨h1, h2⟩
    obtain ⟨x, hx, hx2⟩ := (segments_cover _ _ _ hw).mp h1
    obtain ⟨y, hy, hy2⟩ := (segments_cover _ _ _ hh).mp h2
    exact ⟨x, y, hx, hy, hx2, hy2⟩
  · rintro ⟨x, y, hx, hy, hx2, hy2⟩
    exact ⟨(segments_cover _ _ _ hw).mpr ⟨x, hx, hx2⟩,
      (segments_cover _ _ _ hh).mpr ⟨y, hy, hy2⟩⟩

/-- Witness for `tile_plan_covers_page` at a concrete page
(2500×100 page, 1000×100 viewport, point (1600, 50)). -/
theorem tile_plan_covers_page_witness :
    0 < (1000 : Nat) ∧ 0 < (100 : Nat) ∧
    ((1600 < 2500 ∧ 50 < 100) ↔
      ∃ x y, x < segmentCount 2500 1000 ∧ y < segmentCount 100 100 ∧
        inTile x 2500 1000 1600 ∧ inTile y 100 100 50) :=
  ⟨by decide, by decide,
    tile_plan_covers_page ⟨2500, 100, 1000, 100⟩ (by decide) (by decide) 1600 50⟩

/-- C1 counterexample: for a 2500×100 page under a 1000×100 viewport the grid
is 3×1 and the distinct cells (1,0) and (2,0) both capture the page point
(1600, 50) — the clamped last column overlaps its neighbour, so the tiles do
not partition the rectangle. -/
theorem tiles_overlap_cex :
    0 < (1000 : Nat) ∧ 0 < (100 : Nat) ∧
    segmentCount 2500 1000 = 3 ∧ segmentCount 100 100 = 1 ∧
    (1 : Nat) < 3 ∧ (2 : Nat) < 3 ∧ (0 : Nat) < 1 ∧
    inTile 1 2500 1000 1600 ∧ inTile 2 2500 1000 1600 ∧
    inTile 0 100 100 50 ∧ ((1, 0) : Nat × Nat) ≠ (2, 0) := by
  decide

/-- Ceiling-division form of the segment count: for a positive viewport the
floor-plus-remainder formula of the source equals `max 1 ⌈scroll/viewport⌉`. -/
theorem ceil_div_eq (scroll viewport : Nat) (hv : 0 < viewport) :
    (scroll + viewport - 1) / viewport
      = scroll / viewport + if scroll % viewport > 0 then 1 else 0 := by
  rcases Nat.eq_zero_or_pos (scroll % viewport) with h0 | hpos
  · simp only [h0, Nat.lt_irrefl, gt_iff_lt, if_false, Nat.add_zero]
    apply Nat.div_eq_of_lt_le
    · have h1 := Nat.div_mul_le_self scroll viewport
      revert h1
      generalize scroll / viewport * viewport = A
      intro h1
      omega
    · rw [Nat.add_mul, Nat.one_mul]
      have h1 := Nat.div_add_mod' scroll viewport
      have h2 : scroll % viewport < viewport := Nat.mod_lt scroll hv
      revert h0 h1 h2
      generalize scroll / viewport * viewport = A
      generalize scroll % viewport = r
      intro h0 h1 h2
      omega
  · rw [if_pos hpos]
    apply Nat.div_eq_of_lt_le
    · rw [Nat.add_mul, Nat.one_mul]
      have h1 := Nat.div_add_mod' scroll viewport
      revert hpos h1
      generalize scroll / viewport * viewport = A
      generalize scroll % viewport = r
      intro hpos h1
      omega
    · rw [Nat.add_mul, Nat.add_mul, Nat.one_mul]
      have h1 := Nat.div_add_mod' scroll viewport
      have h2 : scroll % viewport < viewport := Nat.mod_lt scroll hv
      revert hpos h1 h2
      generalize scroll / viewport * viewport = A
      generalize scroll % viewport = r
      intro hpos h1 h2
      omega

/-- C2: the planner computes `columns = max(1, ceil(scroll / viewport))`,
offset `min(i * viewport, max(0, scroll - viewport))` and actual size
`min(viewport, scroll - offset)`; at scrollWidth 2500 and viewportWidth 1000
this gives 3 columns with offsets 0, 1000, 1500 and widths 1000, 1000, 1000. -/
theorem planner_formulas (scroll viewport : Nat) (hv : 0 < viewport) :
    segmentCount scroll viewport = max 1 ((scroll + viewport - 1) / viewport) ∧
    (∀ i, scrollOffset i scroll viewport = min (i * viewport) (scroll - viewport)) ∧
    (∀ i, actualSize i scroll viewport
        = min viewport (scroll - scrollOffset i scroll viewport)) ∧
    segmentCount 2500 1000 = 3 ∧
    scrollOffset 0 2500 1000 = 0 ∧ scrollOffset 1 2500 1000 = 1000 ∧
    scrollOffset 2 2500 1000 = 1500 ∧
    actualSize 0 2500 1000 = 1000 ∧ actualSize 1 2500 1000 = 1000 ∧
    actualSize 2 2500 1000 = 1000 :=
  ⟨by unfold segmentCount; rw [ceil_div_eq scroll viewport hv],
    fun _ => rfl, fun _ => rfl,
    by decide, by decide, by decide, by decide, by decide, by decide, by decide⟩

/-- Witness for `planner_formulas` at scrollWidth 2500, viewportWidth 1000. -/
theorem planner_formulas_witness :
    0 < (1000 : Nat) ∧
    (segmentCount 2500 1000 = max 1 ((2500 + 1000 - 1) / 1000) ∧
      (∀ i, scrollOffset i 2500 1000 = min (i * 1000) (2500 - 1000)) ∧
      (∀ i, actualSize i 2500 1000 = min 1000 (2500 - scrollOffset i 2500 1000)) ∧
      segmentCount 2500 1000 = 3 ∧
      scrollOffset 0 2500 1000 = 0 ∧ scrollOffset 1 2500 1000 = 1000 ∧
      scrollOffset 2 2500 1000 = 1500 ∧
      actualSize 0 2500 1000 = 1000 ∧ actualSize 1 2500 1000 = 1000 ∧
      actualSize 2 2500 1000 = 1000) :=
  ⟨by decide, planner_formulas 2500 1000 (by decide)⟩

/-! ## Single-flight guard (`captureScreenshot`) -/

/-- Outcome of the guard check at the top of `captureScreenshot`. -/
inductive InvokeResult
  | proceeded
  | rejectedCaptureInProgress
  deriving Repr, DecidableEq

/-- The guard-acquisition step of `captureScreenshot`: when `isCapturing` is
already set, the call throws the capture-in-progress error ("Screenshot
capture already in progress") and leaves the flag untouched; otherwise it
sets the flag and proceeds. The argument is the current value of the
process-wide `isCapturing` flag; the result pairs the outcome with the new
flag value. -/
def invokeCapture (isCapturing : Bool) : InvokeResult × Bool :=
  if isCapturing then (.rejectedCaptureInProgress, isCapturing)
  else (.proceeded, true)

/-- C3: from the idle state the first invocation proceeds and sets the guard;
a second invocation arriving while the first still holds the guard fails fast
with the capture-in-progress rejection (it is not queued and does not run),
so exactly one of the two proceeds. -/
theorem single_flight :
    invokeCapture false = (.proceeded, true) ∧
    invokeCapture (invokeCapture false).2 = (.rejectedCaptureInProgress, true) := by
  decide

/-- Errors observable from one `captureScreenshot` call. -/
inductive RunError
  | captureInProgress
  | bodyError (msg : String)
  deriving Repr, DecidableEq

/-- `captureScreenshot` as a whole: the guard check, then the body
(prepare → capture → process, abstracted here as an arbitrary `Except`
value) wrapped in try/finally, the finally block clearing `isCapturing` on
every exit path. Input: current flag and the body's outcome; output: the
call's result and the final flag. -/
def captureScreenshotRun (isCapturing : Bool) (body : Except String String) :
    Except RunError String × Bool :=
  if isCapturing then (.error .captureInProgress, isCapturing)
  else
    match body with
    | .ok r => (.ok r, false)
    | .error m => (.error (.bodyError m), false)

/-- C8: whatever the body does — return normally or throw any error — a run
that acquired the guard releases it (final flag false), and a subsequent
invocation is never rejected with capture-in-progress. -/
theorem guard_released_on_all_paths (body next : Except String String) :
    (captureScreenshotRun false body).2 = false ∧
    (captureScreenshotRun (captureScreenshotRun false body).2 next).1
      ≠ .error .captureInProgress := by
  cases body <;> cases next <;> simp [captureScreenshotRun]

/-! ## Rate-limited capture (`captureScreenshotWithRetry`) -/

/-- Failure modes of the external capture primitive
(`chrome.tabs.captureVisibleTab`): the rate-limit signal is the error whose
message contains MAX_CAPTURE_VISIBLE_TAB_CALLS_PER_SECOND; every other
failure is `other` with its message. -/
inductive CaptureFailure
  | rateLimited
  | other (msg : String)
  deriving Repr, DecidableEq

/-- Outcome of `captureScreenshotWithRetry`: a captured data URL, a
non-rate-limit error propagated unchanged, or the final "Failed to capture
screenshot after multiple retries" error. -/
inductive RetryOutcome
  | success (dataUrl : String)
  | propagated (msg : String)
  | exhausted
  deriving Repr, DecidableEq

/-- The backoff sleep after the retryCount-th rate-limited failure:
`Math.min(1000 * retryCount, 3000)`. -/
def backoffWait (retryCount : Nat) : Nat :=
  min (1000 * retryCount) 3000

/-- The while loop of `captureScreenshotWithRetry`. `attempt` is the value
of `retryCount` when the capture attempt is issued; `remaining` is
`maxRetries - retryCount`, the number of loop iterations the guard
`retryCount < maxRetries` still allows; `waits` accumulates the backoff
sleeps performed so far. On a rate-limited failure the loop increments
`retryCount`, sleeps `backoffWait retryCount` and retries; on any other
failure it rethrows at once; when the guard stops the loop with no
screenshot it throws the exhausted error. -/
def captureRetryGo (primitive : Nat → Except CaptureFailure String) :
    Nat → Nat → List Nat → RetryOutcome × List Nat
  | _, 0, waits => (.exhausted, waits)
  | attempt, remaining + 1, waits =>
    match primitive attempt with
    | .ok s => (.success s, waits)
    | .error .rateLimited =>
        captureRetryGo primitive (attempt + 1) remaining
          (waits ++ [backoffWait (attempt + 1)])
    | .error (.other msg) => (.propagated msg, waits)

/-- `captureScreenshotWithRetry(options, maxRetries = 3)`: run the loop from
`retryCount = 0` with no sleeps performed. The capture primitive is
abstracted as a function from the attempt number to that attempt's outcome. -/
def captureScreenshotWithRetry (primitive : Nat → Except CaptureFailure String)
    (maxRetries : Nat) : RetryOutcome × List Nat :=
  captureRetryGo primitive 0 maxRetries []

/-- On a primitive that is rate-limited at every attempt, the loop performs
all allowed attempts, sleeping `backoffWait` after each, and ends exhausted. -/
theorem captureRetryGo_rateLimited (p : Nat → Except CaptureFailure String)
    (hp : ∀ n, p n = .error .rateLimited) :
    ∀ (remaining attempt : Nat) (waits : List Nat),
      captureRetryGo p attempt remaining waits
        = (.exhausted, waits ++ (List.range remaining).map
            (fun i => backoffWait (attempt + i + 1))) := by
  intro remaining
  induction remaining with
  | zero => intro attempt waits; simp [captureRetryGo]
  | succ r ih =>
    intro attempt waits
    simp only [captureRetryGo, hp attempt]
    rw [ih (attempt + 1) (waits ++ [backoffWait (attempt + 1)])]
    simp only [List.append_assoc, List.range_succ_eq_map, List.map_cons,
      List.map_map, List.singleton_append, Nat.add_zero]
    have hmap : List.map (fun i => backoffWait (attempt + 1 + i + 1)) (List.range r)
        = List.map ((fun i => backoffWait (attempt + i + 1)) ∘ Nat.succ) (List.range r) := by
      apply List.map_congr_left
      intro i _
      simp only [Function.comp_apply, Nat.succ_eq_add_one]
      congr 1
      omega
    rw [hmap]

/-- C4: if the primitive is rate-limited on the first two attempts and
succeeds on the third, the capturer returns the successful result after
exactly the two backoff sleeps 1000 ms then 2000 ms; in general the sleep
after the n-th rate-limited failure is `backoffWait n = min(1000 * n, 3000)`
(shown by the wait trace of a primitive that is rate-limited throughout). -/
theorem retry_backoff (p : Nat → Except CaptureFailure String) (s : String)
    (h0 : p 0 = .error .rateLimited)
    (h1 : p 1 = .error .rateLimited)
    (h2 : p 2 = .ok s) :
    captureScreenshotWithRetry p 3 = (.success s, [1000, 2000]) ∧
    backoffWait 1 = 1000 ∧ backoffWait 2 = 2000 ∧ backoffWait 4 = 3000 ∧
    (∀ (q : Nat → Except CaptureFailure String) (maxRetries : Nat),
      (∀ n, q n = .error .rateLimited) →
      (captureScreenshotWithRetry q maxRetries).2
        = (List.range maxRetries).map (fun n => backoffWait (n + 1))) := by
  refine ⟨?_, by decide, by decide, by decide, ?_⟩
  · simp [captureScreenshotWithRetry, captureRetryGo, h0, h1, h2, backoffWait]
  · intro q maxRetries hq
    rw [captureScreenshotWithRetry, captureRetryGo_rateLimited q hq]
    simp

/-- Primitive rate-limited on attempts 0 and 1, succeeding on attempt 2. -/
def primTwiceRateLimited : Nat → Except CaptureFailure String := fun n =>
  if n < 2 then .error .rateLimited else .ok "data:image/png;base64,ok"

/-- Witness for `retry_backoff` on `primTwiceRateLimited`. -/
theorem retry_backoff_witness :
    primTwiceRateLimited 0 = .error .rateLimited ∧
    primTwiceRateLimited 1 = .error .rateLimited ∧
    primTwiceRateLimited 2 = .ok "data:image/png;base64,ok" ∧
    (captureScreenshotWithRetry primTwiceRateLimited 3
        = (.success "data:image/png;base64,ok", [1000, 2000]) ∧
      backoffWait 1 = 1000 ∧ backoffWait 2 = 2000 ∧ backoffWait 4 = 3000 ∧
      (∀ (q : Nat → Except CaptureFailure String) (maxRetries : Nat),
        (∀ n, q n = .error .rateLimited) →
        (captureScreenshotWithRetry q maxRetries).2
          = (List.range maxRetries).map (fun n => backoffWait (n + 1)))) :=
  ⟨rfl, rfl, rfl, retry_backoff primTwiceRateLimited _ rfl rfl rfl⟩

/-- C9: a non-rate-limit failure at any attempt is rethrown at once with no
further attempt and no backoff sleep; a primitive rate-limited at every
attempt exhausts the `maxRetries` allowed attempts (default 3, giving sleeps
1000, 2000, 3000 ms) and ends with the exhausted error. -/
theorem retry_propagates_and_exhausts
    (p q : Nat → Except CaptureFailure String) (msg : String)
    (hp : p 0 = .error (.other msg))
    (hq : ∀ n, q n = .error .rateLimited) :
    captureScreenshotWithRetry p 3 = (.propagated msg, []) ∧
    captureScreenshotWithRetry q 3 = (.exhausted, [1000, 2000, 3000]) ∧
    (∀ (r : Nat → Except CaptureFailure String)
        (attempt remaining : Nat) (waits : List Nat) (m : String),
      r attempt = .error (.other m) →
      captureRetryGo r attempt (remaining + 1) waits = (.propagated m, waits)) := by
  refine ⟨?_, ?_, ?_⟩
  · simp [captureScreenshotWithRetry, captureRetryGo, hp]
  · rw [captureScreenshotWithRetry, captureRetryGo_rateLimited q hq]
    decide
  · intro r attempt remaining waits m hr
    simp [captureRetryGo, hr]

/-- Primitive failing with a non-rate-limit error on every attempt. -/
def primOtherFailure : Nat → Except CaptureFailure String := fun _ =>
  .error (.other "The extensions gallery cannot be scripted.")

/-- Primitive rate-limited on every attempt. -/
def primAlwaysRateLimited : Nat → Except CaptureFailure String := fun _ =>
  .error .rateLimited

/-- Witness for `retry_propagates_and_exhausts` on concrete primitives. -/
theorem retry_propagates_and_exhausts_witness :
    primOtherFailure 0 = .error (.other "The extensions gallery cannot be scripted.") ∧
    (∀ n, primAlwaysRateLimited n = .error .rateLimited) ∧
    (captureScreenshotWithRetry primOtherFailure 3
        = (.propagated "The extensions gallery cannot be scripted.", []) ∧
      captureScreenshotWithRetry primAlwaysRateLimited 3
        = (.exhausted, [1000, 2000, 3000]) ∧
      (∀ (r : Nat → Except CaptureFailure String)
          (attempt remaining : Nat) (waits : List Nat) (m : String),
        r attempt = .error (.other m) →
        captureRetryGo r attempt (remaining + 1) waits = (.propagated m, waits))) :=
  ⟨rfl, fun _ => rfl,
    retry_propagates_and_exhausts primOtherFailure primAlwaysRateLimited _
      rfl (fun _ => rfl)⟩

/-! ## Compositor (`combineImages` canvas sizing and scaling) -/

/-- `MAX_CANVAS_SIZE = 32767`, the maximum canvas dimension most browsers
support. -/
def maxCanvasSize : ℚ := 32767

/-- Total composite extent along one axis: `(maxCell + 1) * images[0].size`
(the first tile's declared size is the per-cell stride). -/
def totalSpan (maxCell tile : ℕ) : ℚ := ((maxCell : ℚ) + 1) * (tile : ℚ)

/-- The downscale factor when the canvas is oversized:
`Math.min(MAX_CANVAS_SIZE / totalWidth, MAX_CANVAS_SIZE / totalHeight, 1)`. -/
def combineScale (totalWidth totalHeight : ℚ) : ℚ :=
  min (min (maxCanvasSize / totalWidth) (maxCanvasSize / totalHeight)) 1

inductive CompositeError
  | pageTooLarge
  deriving Repr, DecidableEq

/-- The compositor's sizing decision. -/
structure CompositePlan where
  scale : ℚ
  canvasWidth : ℤ
  canvasHeight : ℤ
  deriving Repr, DecidableEq

/-- Canvas sizing of `combineImages` (identical in `createPDF`): totals from
the grid extent times the first tile's size; when either total exceeds
`MAX_CANVAS_SIZE` compute the downscale factor, throw the page-too-large
error when it drops below 0.1, otherwise size the canvas to
`Math.floor(total * scale)`; with no overflow the scale stays 1. -/
def combineImagesPlan (maxX maxY tileWidth tileHeight : ℕ) :
    Except CompositeError CompositePlan :=
  if totalSpan maxX tileWidth > maxCanvasSize ∨ totalSpan maxY tileHeight > maxCanvasSize then
    if combineScale (totalSpan maxX tileWidth) (totalSpan maxY tileHeight) < 1/10 then
      .error .pageTooLarge
    else
      .ok ⟨combineScale (totalSpan maxX tileWidth) (totalSpan maxY tileHeight),
        ⌊totalSpan maxX tileWidth
          * combineScale (totalSpan maxX tileWidth) (totalSpan maxY tileHeight)⌋,
        ⌊totalSpan maxY tileHeight
          * combineScale (totalSpan maxX tileWidth) (totalSpan maxY tileHeight)⌋⟩
  else .ok ⟨1, ⌊totalSpan maxX tileWidth⌋, ⌊totalSpan maxY tileHeight⌋⟩

/-- The rectangle `ctx.drawImage` paints for the tile at grid cell (x, y):
position `(x * width * scale, y * height * scale)`, size
`(width * scale, height * scale)`. -/
def drawRect (x y tileWidth tileHeight : ℕ) (scale : ℚ) : ℚ × ℚ × ℚ × ℚ :=
  ((x : ℚ) * tileWidth * scale, (y : ℚ) * tileHeight * scale,
    (tileWidth : ℚ) * scale, (tileHeight : ℚ) * scale)

/-- C5: when either total exceeds 32767 the compositor uses
`scale = min(32767/totalWidth, 32767/totalHeight, 1)`, fails with the
page-too-large error exactly when that scale is below 0.1, and otherwise
scales the canvas and every tile's draw position and size by it; a 3×3 grid
of 20000×20000 tiles (totals 60000) downscales by 32767/60000 ≈ 0.546, and a
10×10 grid of 40000×40000 tiles (scale ≈ 0.082 < 0.1) fails. -/
theorem compositor_scaling (maxX maxY w h : ℕ)
    (hover : totalSpan maxX w > maxCanvasSize ∨ totalSpan maxY h > maxCanvasSize) :
    (combineScale (totalSpan maxX w) (totalSpan maxY h) < 1/10 →
      combineImagesPlan maxX maxY w h = .error .pageTooLarge) ∧
    (¬ combineScale (totalSpan maxX w) (totalSpan maxY h) < 1/10 →
      combineImagesPlan maxX maxY w h = .ok
        ⟨combineScale (totalSpan maxX w) (totalSpan maxY h),
          ⌊totalSpan maxX w * combineScale (totalSpan maxX w) (totalSpan maxY h)⌋,
          ⌊totalSpan maxY h * combineScale (totalSpan maxX w) (totalSpan maxY h)⌋⟩) ∧
    (∀ s x y, drawRect x y w h s
        = ((x : ℚ) * w * s, (y : ℚ) * h * s, (w : ℚ) * s, (h : ℚ) * s)) ∧
    combineScale 60000 60000 = 32767 / 60000 ∧
    |(32767 / 60000 : ℚ) - 546 / 1000| < 1 / 1000 ∧
    combineImagesPlan 2 2 20000 20000 = .ok ⟨32767 / 60000, 32767, 32767⟩ ∧
    combineImagesPlan 9 9 40000 40000 = .error .pageTooLarge := by
  refine ⟨?_, ?_, fun _ _ _ => rfl, ?_, by rw [abs_sub_lt_iff]; norm_num, ?_, ?_⟩
  · intro hlt
    rw [combineImagesPlan, if_pos hover, if_pos hlt]
  · intro hge
    rw [combineImagesPlan, if_pos hover, if_neg hge]
  · rw [combineScale, maxCanvasSize, min_self, min_eq_left]
    norm_num
  · have h60 : totalSpan 2 20000 = 60000 := by norm_num [totalSpan]
    have hsc : combineScale 60000 60000 = 32767 / 60000 := by
      rw [combineScale, maxCanvasSize, min_self, min_eq_left]
      norm_num
    rw [combineImagesPlan, h60, if_pos (by norm_num [maxCanvasSize]), hsc,
      if_neg (by norm_num)]
    have hfloor : ((60000 : ℚ) * (32767 / 60000)) = 32767 := by norm_num
    rw [hfloor]
    norm_num
  · have h400 : totalSpan 9 40000 = 400000 := by norm_num [totalSpan]
    have hsc : combineScale 400000 400000 = 32767 / 400000 := by
      rw [combineScale, maxCanvasSize, min_self, min_eq_left]
      norm_num
    rw [combineImagesPlan, h400, if_pos (by norm_num [maxCanvasSize]), hsc,
      if_pos (by norm_num)]

/-- Witness for `compositor_scaling` at the 3×3 grid of 20000×20000 tiles. -/
theorem compositor_scaling_witness :
    (totalSpan 2 20000 > maxCanvasSize ∨ totalSpan 2 20000 > maxCanvasSize) ∧
    ((combineScale (totalSpan 2 20000) (totalSpan 2 20000) < 1/10 →
        combineImagesPlan 2 2 20000 20000 = .error .pageTooLarge) ∧
      (¬ combineScale (totalSpan 2 20000) (totalSpan 2 20000) < 1/10 →
        combineImagesPlan 2 2 20000 20000 = .ok
          ⟨combineScale (totalSpan 2 20000) (totalSpan 2 20000),
            ⌊totalSpan 2 20000 * combineScale (totalSpan 2 20000) (totalSpan 2 20000)⌋,
            ⌊totalSpan 2 20000 * combineScale (totalSpan 2 20000) (totalSpan 2 20000)⌋⟩) ∧
      (∀ s x y, drawRect x y 20000 20000 s
          = ((x : ℚ) * 20000 * s, (y : ℚ) * 20000 * s,
              (20000 : ℚ) * s, (20000 : ℚ) * s)) ∧
      combineScale 60000 60000 = 32767 / 60000 ∧
      |(32767 / 60000 : ℚ) - 546 / 1000| < 1 / 1000 ∧
      combineImagesPlan 2 2 20000 20000 = .ok ⟨32767 / 60000, 32767, 32767⟩ ∧
      combineImagesPlan 9 9 40000 40000 = .error .pageTooLarge) :=
  ⟨Or.inl (by norm_num [totalSpan, maxCanvasSize]),
    compositor_scaling 2 2 20000 20000
      (Or.inl (by norm_num [totalSpan, maxCanvasSize]))⟩

/-! ## Post-loop validation (`captureFullPage`, after the capture loop) -/

/-- JS `s.startsWith("data:image/")`: the characters of "data:image/" are
a prefix of s's characters. -/
def startsWithDataImage (s : String) : Bool :=
  "data:image/".data.isPrefixOf s.data

/-- A captured segment as pushed by the capture loop. The grid position and
size fields are natural numbers, so the source's typeof-number checks hold
by typing; the timestamp is irrelevant to validation and omitted. -/
structure Segment where
  dataUrl : String
  x : Nat
  y : Nat
  width : Nat
  height : Nat
  deriving Repr, DecidableEq

inductive ValidationError
  | noImagesCaptured
  | invalidImageData
  deriving Repr, DecidableEq

/-- The post-loop validation of `captureFullPage`: an empty list throws
"No images were captured"; a segment whose data URL does not start with
"data:image/" throws "Invalid image data"; a length different from
`segmentsX * segmentsY` only prints a console warning ("Expected N segments
but captured M") and continues, so the expected count does not influence the
result. -/
def validateCapturedImages (images : List Segment) (_expectedSegments : Nat) :
    Except ValidationError (List Segment) :=
  if images.length = 0 then .error .noImagesCaptured
  else if images.all (fun img => startsWithDataImage img.dataUrl) then .ok images
  else .error .invalidImageData

/-- C6 counterexample: a single otherwise-valid tile with an expected count
of 4 (= 2×2 grid) passes validation — a tile count different from
columns*rows does not fail the run. -/
theorem validation_ignores_count_cex :
    validateCapturedImages [⟨"data:image/png;base64,AAAA", 0, 0, 1000, 800⟩] 4
      = .ok [⟨"data:image/png;base64,AAAA", 0, 0, 1000, 800⟩] ∧
    (1 : Nat) ≠ 4 := by
  refine ⟨?_, by decide⟩
  rw [validateCapturedImages, if_neg (by decide), if_pos (by decide)]

/-- C6 (amended): validation fails exactly when no tile was captured or some
tile's image data is not a well-formed image data URL; the expected tile
count `columns * rows` plays no role in the outcome (a mismatch is only
logged as a warning). -/
theorem validation_characterization (images : List Segment) (expected : Nat) :
    (validateCapturedImages images expected = .ok images ↔
      images ≠ [] ∧ ∀ img ∈ images, startsWithDataImage img.dataUrl = true) ∧
    validateCapturedImages images expected = validateCapturedImages images 0 := by
  refine ⟨?_, rfl⟩
  rw [validateCapturedImages]
  by_cases hlen : images.length = 0
  · rw [if_pos hlen]
    have hnil : images = [] := List.length_eq_zero.mp hlen
    subst hnil
    simp
  · rw [if_neg hlen]
    by_cases hall : images.all (fun img => startsWithDataImage img.dataUrl) = true
    · rw [if_pos hall]
      simp only [List.all_eq_true] at hall
      have hne : images ≠ [] := by
        intro hnil; exact hlen (by simp [hnil])
      exact Iff.intro (fun _ => ⟨hne, hall⟩) (fun _ => rfl)
    · rw [if_neg hall]
      simp only [List.all_eq_true] at hall
      constructor
      · intro h; cases h
      · intro ⟨_, h2⟩; exact absurd h2 hall

/-! ## Missing viewport validation (`captureFullPage` dimension handling) -/

/-- The segment count as JavaScript evaluates it when the viewport dimension
may be zero: `scroll / 0` is Infinity (NaN for 0/0), so the computed count
is not a natural number and the capture loop over it never terminates;
`none` models that. No InvalidGeometry check exists anywhere in
`captureFullPage` before this computation. -/
def segmentCountJS (scroll viewport : Nat) : Option Nat :=
  if viewport = 0 then none else some (segmentCount scroll viewport)

/-- C7 (code bug): with a zero viewport dimension the code divides by zero —
the segment count is Infinity and the capture loop cannot terminate — instead
of failing with InvalidGeometry as the specified error condition requires;
with any positive viewport the count is the ordinary planner value. -/
theorem viewport_zero_not_validated :
    segmentCountJS 2500 0 = none ∧
    (∀ scroll, segmentCountJS scroll 0 = none) ∧
    (∀ scroll viewport, viewport ≠ 0 →
      segmentCountJS scroll viewport = some (segmentCount scroll viewport)) :=
  ⟨rfl, fun _ => rfl, fun scroll viewport h => by rw [segmentCountJS, if_neg h]⟩

/-- Witness for `viewport_zero_not_validated` (positive-viewport branch at
2500×1000). -/
theorem viewport_zero_not_validated_witness :
    segmentCountJS 2500 0 = none ∧ (1000 : Nat) ≠ 0 ∧
    segmentCountJS 2500 1000 = some (segmentCount 2500 1000) :=
  ⟨(viewport_zero_not_validated).1, by decide,
    (viewport_zero_not_validated).2.2 2500 1000 (by decide)⟩

/-! ## Capture request constants (`captureScreenshotWithRetry`, encoders) -/

/-- The options record relevant to capture and encoding. `quality` is the
slider value in [0, 1]; `format` is the requested output format
("png", "jpeg" or "pdf"). -/
structure CaptureOptions where
  quality : ℚ
  format : String
  deriving Repr, DecidableEq

/-- JavaScript `Math.round`: round half toward positive infinity. -/
def jsRound (x : ℚ) : ℤ := ⌊x + 1/2⌋

/-- The argument object passed to `chrome.tabs.captureVisibleTab`. -/
structure CaptureVisibleTabArgs where
  format : String
  quality : ℤ
  deriving Repr, DecidableEq

/-- The capture request built on every attempt inside
`captureScreenshotWithRetry`: always format "png" with quality
`Math.round(options.quality * 100)`. -/
def captureTabArgs (options : CaptureOptions) : CaptureVisibleTabArgs :=
  ⟨"png", jsRound (options.quality * 100)⟩

/-- The mime type `combineImages` re-encodes the combined canvas with:
the requested output format. -/
def combineEncodeMime (options : CaptureOptions) : String :=
  "image/" ++ options.format

/-- The mime type `createPDF` encodes the combined canvas with before
wrapping it in the printable document page. -/
def pdfEncodeMime : String := "image/png"

/-- C10: every capture request uses format "png" and quality
`round(options.quality * 100)` no matter which output format the options
request; the requested format only enters at canvas re-encoding
("image/" + format in `combineImages`, always "image/png" in `createPDF`). -/
theorem capture_requests_always_png (options : CaptureOptions) :
    (captureTabArgs options).format = "png" ∧
    (captureTabArgs options).quality = jsRound (options.quality * 100) ∧
    (∀ fmt, (captureTabArgs { options with format := fmt }).format = "png") ∧
    (∀ fmt, (captureTabArgs { options with format := fmt }).quality
        = jsRound (options.quality * 100)) ∧
    combineEncodeMime options = "image/" ++ options.format ∧
    pdfEncodeMime = "image/png" ∧
    jsRound ((9 : ℚ) / 10 * 100) = 90 :=
  ⟨rfl, rfl, fun _ => rfl, fun _ => rfl, rfl, rfl, by norm_num [jsRound]⟩

end Screenshot
